import Mathlib

/-!
Verification development for the snowflake-to-sqlite repository.

The repository contains two near-identical pipeline scripts,
`snow_to_sqlite.py` and `snow_to_duckdb.py`, that copy tables from a
Snowflake warehouse into a local embedded store.  The logic relevant to
the properties checked here is:

* a schema mapper (`map_snowflake_to_sqlite_type` /
  `map_snowflake_to_duckdb_type`) that maps a Snowflake type string to a
  local column type via Python substring tests (`"X" in s`) after
  uppercasing;
* a per-cell converter (`convert_value`) keyed on the column's declared
  Snowflake type;
* a batch converter (`convert_data_for_sqlite` /
  `convert_data_for_duckdb`) that zips each row with the schema;
* a row loader (`write_data_to_sqlite`) that builds a placeholder list
  from `data[0]`;
* SQLite date adapters (`adapt_date` / `convert_date`);
* a `main` driver that loops over a static table list inside a
  `try/finally` that closes only the Snowflake connection.

Python values are modelled by the inductive `PyVal`, Python strings by
`String`, Python's substring operator by `pyIn`, `str.upper` by
`pyUpper` (the type strings involved are ASCII), and exceptions by
`Except`/`Option` results.
-/

/-- Python `sub in s` on lists of characters: `startsWithChars sub s`
holds when `sub` is an initial segment of `s`. -/
def startsWithChars : List Char → List Char → Bool
  | [], _ => true
  | _ :: _, [] => false
  | a :: as, b :: bs => a == b && startsWithChars as bs

/-- Python `sub in s` on lists of characters: `sub` occurs contiguously
somewhere in `s`. -/
def containsChars (sub : List Char) : List Char → Bool
  | [] => startsWithChars sub []
  | c :: cs => startsWithChars sub (c :: cs) || containsChars sub cs

/-- Python's `sub in s` operator on strings. -/
def pyIn (sub s : String) : Bool :=
  containsChars sub.data s.data

/-- Python's `str.upper()` restricted to ASCII, which covers every type
string the scripts handle. -/
def pyUpper (s : String) : String :=
  ⟨s.data.map Char.toUpper⟩

namespace SnowToSqlite

/-- Embedding of `map_snowflake_to_sqlite_type` from
`src/snow_to_sqlite.py` (lines 73-112): uppercase the input, then run
the ordered substring checks, defaulting to `"TEXT"`. -/
def map_snowflake_to_sqlite_type (snowflake_type : String) : String :=
  let t := pyUpper snowflake_type
  if pyIn "VARCHAR" t || pyIn "TEXT" t then "TEXT"
  else if pyIn "NUMBER" t then
    if pyIn "," t then "REAL" else "INTEGER"
  else if pyIn "TIMESTAMP_NTZ" t then "datetime"
  else if pyIn "TIMESTAMP" t then "datetime"
  else if pyIn "DATE" t then "date"
  else if pyIn "BOOLEAN" t then "INTEGER"
  else "TEXT"

end SnowToSqlite

namespace SnowToDuckdb

/-- Embedding of `map_snowflake_to_duckdb_type` from
`src/snow_to_duckdb.py` (lines 19-58): identical control flow to the
SQLite variant with DuckDB type names. -/
def map_snowflake_to_duckdb_type (snowflake_type : String) : String :=
  let t := pyUpper snowflake_type
  if pyIn "VARCHAR" t || pyIn "TEXT" t then "VARCHAR"
  else if pyIn "NUMBER" t then
    if pyIn "," t then "DOUBLE" else "BIGINT"
  else if pyIn "TIMESTAMP_NTZ" t then "TIMESTAMP"
  else if pyIn "TIMESTAMP" t then "TIMESTAMP"
  else if pyIn "DATE" t then "DATE"
  else if pyIn "BOOLEAN" t then "BOOLEAN"
  else "VARCHAR"

end SnowToDuckdb

/-- C1 counterexample: the claim asserts `map_type("NUMBER(10,0)")` is
the integer local type, but the string `"NUMBER(10,0)"` contains a
comma, so both mappers take the floating-point branch. -/
theorem C1_number_ten_zero_not_integer :
    SnowToSqlite.map_snowflake_to_sqlite_type "NUMBER(10,0)" ≠ "INTEGER" ∧
    SnowToSqlite.map_snowflake_to_sqlite_type "NUMBER(10,0)" = "REAL" ∧
    SnowToDuckdb.map_snowflake_to_duckdb_type "NUMBER(10,0)" ≠ "BIGINT" ∧
    SnowToDuckdb.map_snowflake_to_duckdb_type "NUMBER(10,0)" = "DOUBLE" := by
  refine ⟨?_, rfl, ?_, rfl⟩ <;> decide

/-- C1 (amended): for any type string whose uppercasing contains
`"NUMBER"` but neither `"VARCHAR"` nor `"TEXT"`, the mapper returns the
floating-point local type when the string contains a comma and the
integer local type otherwise; `"NUMBER(10,2)"` and `"NUMBER(10,0)"`
both contain a comma and therefore both map to REAL (resp. DOUBLE). -/
theorem C1_number_comma_rule :
    (∀ s : String,
      pyIn "NUMBER" (pyUpper s) = true →
      pyIn "VARCHAR" (pyUpper s) = false →
      pyIn "TEXT" (pyUpper s) = false →
      SnowToSqlite.map_snowflake_to_sqlite_type s =
        (if pyIn "," (pyUpper s) then "REAL" else "INTEGER") ∧
      SnowToDuckdb.map_snowflake_to_duckdb_type s =
        (if pyIn "," (pyUpper s) then "DOUBLE" else "BIGINT")) ∧
    SnowToSqlite.map_snowflake_to_sqlite_type "NUMBER(10,2)" = "REAL" ∧
    SnowToSqlite.map_snowflake_to_sqlite_type "NUMBER(10,0)" = "REAL" := by
  refine ⟨?_, rfl, rfl⟩
  intro s h1 h2 h3
  constructor
  · simp [SnowToSqlite.map_snowflake_to_sqlite_type, h1, h2, h3]
  · simp [SnowToDuckdb.map_snowflake_to_duckdb_type, h1, h2, h3]

/-- C1 witness: the amended rule applied to `"NUMBER(10,2)"`. -/
theorem C1_number_comma_rule_witness :
    SnowToSqlite.map_snowflake_to_sqlite_type "NUMBER(10,2)" =
      (if pyIn "," (pyUpper "NUMBER(10,2)") then "REAL" else "INTEGER") :=
  (C1_number_comma_rule.1 "NUMBER(10,2)" (by decide) (by decide) (by decide)).1

/-- C2: both mappers are total Lean functions (hence never raise, and
are deterministic), and any type string whose uppercasing contains none
of the recognized patterns falls through every branch to the textual
fallback (`"TEXT"` for SQLite, `"VARCHAR"` for DuckDB). -/
theorem C2_map_type_total_fallback :
    ∀ s : String,
      pyIn "VARCHAR" (pyUpper s) = false →
      pyIn "TEXT" (pyUpper s) = false →
      pyIn "NUMBER" (pyUpper s) = false →
      pyIn "TIMESTAMP_NTZ" (pyUpper s) = false →
      pyIn "TIMESTAMP" (pyUpper s) = false →
      pyIn "DATE" (pyUpper s) = false →
      pyIn "BOOLEAN" (pyUpper s) = false →
      SnowToSqlite.map_snowflake_to_sqlite_type s = "TEXT" ∧
      SnowToDuckdb.map_snowflake_to_duckdb_type s = "VARCHAR" := by
  intro s h1 h2 h3 h4 h5 h6 h7
  constructor
  · simp [SnowToSqlite.map_snowflake_to_sqlite_type, h1, h2, h3, h4, h5, h6, h7]
  · simp [SnowToDuckdb.map_snowflake_to_duckdb_type, h1, h2, h3, h4, h5, h6, h7]

/-- C2 witness: the unrecognized type string `"GEOGRAPHY"` falls back to
the textual local type in both variants. -/
theorem C2_map_type_total_fallback_witness :
    SnowToSqlite.map_snowflake_to_sqlite_type "GEOGRAPHY" = "TEXT" ∧
    SnowToDuckdb.map_snowflake_to_duckdb_type "GEOGRAPHY" = "VARCHAR" :=
  C2_map_type_total_fallback "GEOGRAPHY" (by decide) (by decide) (by decide)
    (by decide) (by decide) (by decide) (by decide)

/-- A Python `datetime.date`: CPython enforces `1 <= year <= 9999` and
calendar validity at construction, recorded here by `isValidPyDate`. -/
structure PyDate where
  year : Nat
  month : Nat
  day : Nat
deriving DecidableEq

/-- Python's Gregorian leap-year test (`calendar.isleap`). -/
def isLeapYear (y : Nat) : Bool :=
  y % 4 == 0 && (y % 100 != 0 || y % 400 == 0)

/-- Days in a month of the proleptic Gregorian calendar, as used by
`datetime.date` validation. -/
def daysInMonth (y m : Nat) : Nat :=
  if m = 2 then (if isLeapYear y then 29 else 28)
  else if m = 4 ∨ m = 6 ∨ m = 9 ∨ m = 11 then 30
  else 31

/-- The invariant CPython's `datetime.date` constructor enforces. -/
def isValidPyDate (d : PyDate) : Prop :=
  1 ≤ d.year ∧ d.year ≤ 9999 ∧ 1 ≤ d.month ∧ d.month ≤ 12 ∧
    1 ≤ d.day ∧ d.day ≤ daysInMonth d.year d.month

instance (d : PyDate) : Decidable (isValidPyDate d) := by
  unfold isValidPyDate; infer_instance

/-- The ASCII digit character for `n < 10`. -/
def digitChar : Nat → Char
  | 0 => '0' | 1 => '1' | 2 => '2' | 3 => '3' | 4 => '4'
  | 5 => '5' | 6 => '6' | 7 => '7' | 8 => '8' | _ => '9'

/-- C-style `%04d` for `n ≤ 9999`, as in `date.isoformat`'s year field. -/
def pad4 (n : Nat) : List Char :=
  [digitChar (n / 1000 % 10), digitChar (n / 100 % 10),
   digitChar (n / 10 % 10), digitChar (n % 10)]

/-- C-style `%02d` for `n ≤ 99`, as in `date.isoformat`'s month and day
fields. -/
def pad2 (n : Nat) : List Char :=
  [digitChar (n / 10 % 10), digitChar (n % 10)]

/-- Python `date.isoformat()`: the `YYYY-MM-DD` rendering. -/
def dateIsoformat (d : PyDate) : String :=
  ⟨pad4 d.year ++ '-' :: (pad2 d.month ++ '-' :: pad2 d.day)⟩

/-- Embedding of `adapt_date` from `src/snow_to_sqlite.py` (lines 8-10):
`val.isoformat() if val else None`; a `date` object is always truthy, so
only `None` takes the falsy branch. -/
def adapt_date (val : Option PyDate) : Option String :=
  match val with
  | Option.none => Option.none
  | some d => some (dateIsoformat d)

/-- ASCII digit test used by `strptime`'s `\d` regex atoms. -/
def isDigitChar (c : Char) : Bool :=
  48 ≤ c.toNat && c.toNat ≤ 57

/-- Numeric value of an ASCII digit character. -/
def digitVal (c : Char) : Nat :=
  c.toNat - 48

/-- Greedily take up to `max` leading digits (as numeric values),
returning them with the unconsumed remainder — the behaviour of the
`\d{1,n}` atoms in CPython's `_strptime` regexes. -/
def takeDigits : Nat → List Char → List Nat × List Char
  | 0, cs => ([], cs)
  | _ + 1, [] => ([], [])
  | m + 1, c :: cs =>
    if isDigitChar c then
      let (ds, r) := takeDigits m cs
      (digitVal c :: ds, r)
    else ([], c :: cs)

/-- Digits-to-number accumulation, most significant digit first. -/
def digitsToNat (ds : List Nat) : Nat :=
  ds.foldl (fun a d => a * 10 + d) 0

/-- The `%Y-%m-%d` pattern of `datetime.strptime` as compiled by
CPython: exactly four digits, a dash, one or two digits, a dash, one or
two digits, end of input.  Returns the raw (year, month, day) fields. -/
def parseIsoDateFields (cs : List Char) : Option (Nat × Nat × Nat) :=
  let (yds, r1) := takeDigits 4 cs
  if yds.length = 4 then
    match r1 with
    | '-' :: r2 =>
      let (mds, r3) := takeDigits 2 r2
      if 1 ≤ mds.length then
        match r3 with
        | '-' :: r4 =>
          let (dds, r5) := takeDigits 2 r4
          if 1 ≤ dds.length ∧ r5 = [] then
            some (digitsToNat yds, digitsToNat mds, digitsToNat dds)
          else Option.none
        | _ => Option.none
      else Option.none
    | _ => Option.none
  else Option.none

/-- The `datetime.date` constructor: range-checks the fields and raises
(`Option.none`) on an invalid calendar date. -/
def mkPyDate (y m d : Nat) : Option PyDate :=
  if 1 ≤ y ∧ y ≤ 9999 ∧ 1 ≤ m ∧ m ≤ 12 ∧ 1 ≤ d ∧ d ≤ daysInMonth y m then
    some ⟨y, m, d⟩
  else Option.none

/-- Embedding of `convert_date` from `src/snow_to_sqlite.py` (lines
18-23): `None`/empty bytes are falsy and yield `None`; otherwise
`datetime.strptime(val.decode(), "%Y-%m-%d").date()` with
`ValueError` caught to `None`.  SQLite hands the converter the stored
bytes, modelled as a `String`. -/
def convert_date (val : Option String) : Option PyDate :=
  match val with
  | Option.none => Option.none
  | some s =>
    if s.data.isEmpty then Option.none
    else
      match parseIsoDateFields s.data with
      | some (y, m, d) => mkPyDate y m d
      | Option.none => Option.none

theorem digitChar_spec :
    ∀ k, k < 10 → isDigitChar (digitChar k) = true ∧ digitVal (digitChar k) = k := by
  decide

theorem daysInMonth_le (y m : Nat) : daysInMonth y m ≤ 31 := by
  unfold daysInMonth
  split
  · split <;> omega
  · split <;> omega

theorem takeDigits_pad4 (y : Nat) (r : List Char) :
    takeDigits 4 (pad4 y ++ r) =
      ([y / 1000 % 10, y / 100 % 10, y / 10 % 10, y % 10], r) := by
  have hc : ∀ k : Nat, isDigitChar (digitChar (k % 10)) = true :=
    fun k => (digitChar_spec (k % 10) (Nat.mod_lt _ (by omega))).1
  have hv : ∀ k : Nat, digitVal (digitChar (k % 10)) = k % 10 :=
    fun k => (digitChar_spec (k % 10) (Nat.mod_lt _ (by omega))).2
  simp [pad4, takeDigits, hc, hv]

theorem takeDigits_pad2 (n : Nat) (r : List Char) :
    takeDigits 2 (pad2 n ++ r) = ([n / 10 % 10, n % 10], r) := by
  have hc : ∀ k : Nat, isDigitChar (digitChar (k % 10)) = true :=
    fun k => (digitChar_spec (k % 10) (Nat.mod_lt _ (by omega))).1
  have hv : ∀ k : Nat, digitVal (digitChar (k % 10)) = k % 10 :=
    fun k => (digitChar_spec (k % 10) (Nat.mod_lt _ (by omega))).2
  simp [pad2, takeDigits, hc, hv]

theorem dateIsoformat_roundtrip (d : PyDate) (h : isValidPyDate d) :
    convert_date (some (dateIsoformat d)) = some d := by
  obtain ⟨hy1, hy2, hm1, hm2, hd1, hd2⟩ := h
  have hdle : d.day ≤ 31 := le_trans hd2 (daysInMonth_le d.year d.month)
  have hdata : (dateIsoformat d).data =
      pad4 d.year ++ '-' :: (pad2 d.month ++ '-' :: (pad2 d.day ++ [])) := by
    simp [dateIsoformat]
  have h4 := takeDigits_pad4 d.year ('-' :: (pad2 d.month ++ '-' :: (pad2 d.day ++ [])))
  have h2m := takeDigits_pad2 d.month ('-' :: (pad2 d.day ++ []))
  have h2d := takeDigits_pad2 d.day []
  have hy : digitsToNat [d.year / 1000 % 10, d.year / 100 % 10,
      d.year / 10 % 10, d.year % 10] = d.year := by
    simp [digitsToNat, List.foldl]
    omega
  have hm : digitsToNat [d.month / 10 % 10, d.month % 10] = d.month := by
    simp [digitsToNat, List.foldl]
    omega
  have hd : digitsToNat [d.day / 10 % 10, d.day % 10] = d.day := by
    simp [digitsToNat, List.foldl]
    omega
  have hparse : parseIsoDateFields (dateIsoformat d).data =
      some (d.year, d.month, d.day) := by
    rw [hdata]
    unfold parseIsoDateFields
    rw [h4]
    simp only []
    rw [h2m]
    simp only []
    rw [h2d]
    simp [hy, hm, hd]
  have hne : (dateIsoformat d).data.isEmpty = false := by
    rw [hdata]; simp [pad4]
  have hred : convert_date (some (dateIsoformat d)) =
      (if (dateIsoformat d).data.isEmpty then Option.none
       else
         match parseIsoDateFields (dateIsoformat d).data with
         | some (y, m, dd) => mkPyDate y m dd
         | Option.none => Option.none) := rfl
  rw [hred, hne]
  simp only [Bool.false_eq_true, if_false]
  rw [hparse]
  show mkPyDate d.year d.month d.day = some d
  unfold mkPyDate
  rw [if_pos ⟨hy1, hy2, hm1, hm2, hd1, hd2⟩]

/-- C7: serializing any valid Python date with the write adapter
(`adapt_date`, ISO-8601) and parsing it back with the read converter
(`convert_date`, `strptime("%Y-%m-%d")` with errors caught) is the
identity, and malformed inputs — a non-date string, or a string naming a
nonexistent calendar day — convert to `None` instead of raising. -/
theorem C7_date_adapter_roundtrip :
    (∀ d : PyDate, isValidPyDate d → convert_date (adapt_date (some d)) = some d) ∧
    convert_date (some "2023-02-29") = Option.none ∧
    convert_date (some "not-a-date") = Option.none ∧
    convert_date Option.none = Option.none := by
  refine ⟨fun d h => dateIsoformat_roundtrip d h, by decide, by decide, rfl⟩

/-- C7 witness: the round trip at the leap-day boundary case
2024-02-29. -/
theorem C7_date_adapter_roundtrip_witness :
    convert_date (adapt_date (some ⟨2024, 2, 29⟩)) = some ⟨2024, 2, 29⟩ :=
  C7_date_adapter_roundtrip.1 ⟨2024, 2, 29⟩ (by decide)

/-- A Python `datetime.datetime` restricted to the fields the pipeline
exercises (microseconds and timezones never influence the checked
properties). -/
structure PyDateTime where
  date : PyDate
  hour : Nat
  minute : Nat
  second : Nat
deriving DecidableEq

/-- The Python values flowing through the row converter: `None`, `bool`,
`int`, `float`, `decimal.Decimal`, `str`, `datetime.date` and
`datetime.datetime`.  `float` and `Decimal` both carry an integer
mantissa and a decimal scale (value = mantissa / 10^scale); the binary
rounding a real `float(Decimal)` performs is not modelled, and no
checked property depends on it. -/
inductive PyVal where
  | none
  | bool (b : Bool)
  | int (n : Int)
  | float (mantissa : Int) (scale : Nat)
  | decimal (mantissa : Int) (scale : Nat)
  | str (s : String)
  | date (d : PyDate)
  | datetime (t : PyDateTime)
deriving DecidableEq

/-- Decimal digit characters of `n`, least significant first, with fuel
bounding the digit count (64 digits covers every value in scope). -/
def revDigitChars : Nat → Nat → List Char
  | 0, _ => []
  | f + 1, n => if n = 0 then [] else digitChar (n % 10) :: revDigitChars f (n / 10)

/-- Python `str` of a nonnegative integer. -/
def natRepr (n : Nat) : String :=
  if n = 0 then "0" else ⟨(revDigitChars 64 n).reverse⟩

/-- Python `str` of an `int`. -/
def intRepr (n : Int) : String :=
  if n < 0 then "-" ++ natRepr n.natAbs else natRepr n.natAbs

/-- Fixed-width decimal digits of `n`, most significant first. -/
def padDigits (w n : Nat) : List Char :=
  (List.range w).reverse.map fun i => digitChar (n / 10 ^ i % 10)

/-- Python `str` of a `Decimal` with the given mantissa and scale. -/
def decimalRepr (m : Int) (scale : Nat) : String :=
  if scale = 0 then intRepr m
  else
    (if m < 0 then "-" else "") ++ natRepr (m.natAbs / 10 ^ scale) ++ "." ++
      ⟨padDigits scale (m.natAbs % 10 ^ scale)⟩

/-- Python `str` of a `datetime.datetime` (`YYYY-MM-DD HH:MM:SS`). -/
def datetimeStr (t : PyDateTime) : String :=
  ⟨(dateIsoformat t.date).data ++ ' ' :: (pad2 t.hour ++ ':' :: (pad2 t.minute ++ ':' :: pad2 t.second))⟩

/-- Python `str()` over the modelled values. -/
def pyStr : PyVal → String
  | .none => "None"
  | .bool b => if b then "True" else "False"
  | .int n => intRepr n
  | .float m s => decimalRepr m s
  | .decimal m s => decimalRepr m s
  | .str s => s
  | .date d => dateIsoformat d
  | .datetime t => datetimeStr t

/-- Python truthiness over the modelled values. -/
def pyTruthy : PyVal → Bool
  | .none => false
  | .bool b => b
  | .int n => n != 0
  | .float m _ => m != 0
  | .decimal m _ => m != 0
  | .str s => !s.data.isEmpty
  | .date _ => true
  | .datetime _ => true

/-- Exactly two ASCII digits, returning their value and the rest. -/
def parseTwoDigits : List Char → Option (Nat × List Char)
  | c1 :: c2 :: r =>
    if isDigitChar c1 && isDigitChar c2 then
      some (digitVal c1 * 10 + digitVal c2, r)
    else Option.none
  | _ => Option.none

/-- The `HH:MM[:SS]` clock part accepted by `datetime.fromisoformat`. -/
def parseTimeFields (cs : List Char) : Option (Nat × Nat × Nat) :=
  match parseTwoDigits cs with
  | some (h, ':' :: r1) =>
    match parseTwoDigits r1 with
    | some (mi, []) => some (h, mi, 0)
    | some (mi, ':' :: r2) =>
      match parseTwoDigits r2 with
      | some (sec, []) => some (h, mi, sec)
      | _ => Option.none
    | _ => Option.none
  | _ => Option.none

/-- The strict `YYYY-MM-DD` date part of an ISO-8601 string, returning
the raw fields and the remainder. -/
def parseIsoDateStrict : List Char → Option (Nat × Nat × Nat × List Char)
  | y1 :: y2 :: y3 :: y4 :: '-' :: m1 :: m2 :: '-' :: d1 :: d2 :: rest =>
    if [y1, y2, y3, y4, m1, m2, d1, d2].all isDigitChar then
      some (digitsToNat ([y1, y2, y3, y4].map digitVal),
            digitsToNat ([m1, m2].map digitVal),
            digitsToNat ([d1, d2].map digitVal), rest)
    else Option.none
  | _ => Option.none

/-- Python's `datetime.fromisoformat`, modelled on the `YYYY-MM-DD`,
`YYYY-MM-DD<sep>HH:MM` and `YYYY-MM-DD<sep>HH:MM:SS` forms the pipeline
can encounter; every other string is rejected (`ValueError`, i.e.
`Option.none`), as the real function rejects non-ISO strings. -/
def fromisoformat_datetime (s : String) : Option PyDateTime :=
  match parseIsoDateStrict s.data with
  | some (y, m, d, rest) =>
    match mkPyDate y m d with
    | some dt =>
      match rest with
      | [] => some ⟨dt, 0, 0, 0⟩
      | _ :: timecs =>
        match parseTimeFields timecs with
        | some (h, mi, sec) =>
          if h < 24 ∧ mi < 60 ∧ sec < 60 then some ⟨dt, h, mi, sec⟩
          else Option.none
        | Option.none => Option.none
    | Option.none => Option.none
  | Option.none => Option.none

/-- Python `isinstance(value, Decimal)`. -/
def isDecimalValue : PyVal → Bool
  | .decimal _ _ => true
  | _ => false

/-- Python `isinstance(value, (datetime, date))`. -/
def isDateOrDatetime : PyVal → Bool
  | .date _ => true
  | .datetime _ => true
  | _ => false

/-- Python `float(value)` on a `Decimal` (exact value retained; binary
rounding is not modelled and no checked property depends on it). -/
def floatOfDecimal : PyVal → PyVal
  | .decimal m s => .float m s
  | v => v

/-- Python `int(value)` on a `Decimal`: truncation toward zero. -/
def intOfDecimal : PyVal → PyVal
  | .decimal m s => .int (Int.tdiv m ((10 : Int) ^ s))
  | v => v

namespace SnowToSqlite

/-- Embedding of `convert_value` from `src/snow_to_sqlite.py` (lines
133-174): `None` short-circuits; the uppercased type string is then run
through the `"BOOLEAN"`, `"NUMBER(38,0)"`, `"NUMBER"` (Decimal operands
only) and `"TIMESTAMP_NTZ"` substring checks in source order, with
everything else — including the `"NUMBER"` check hit by a non-Decimal
operand — falling through to `return value`.  In the `TIMESTAMP_NTZ`
branch, non-date values go through `datetime.fromisoformat(str(value))`
with `ValueError`/`TypeError` caught to `None`. -/
def convert_value (value : PyVal) (snowflake_type : String) : PyVal :=
  match value with
  | .none => .none
  | v =>
    let t := pyUpper snowflake_type
    if pyIn "BOOLEAN" t then (if pyTruthy v then .int 1 else .int 0)
    else if pyIn "NUMBER(38,0)" t then .str (pyStr v)
    else if pyIn "NUMBER" t && isDecimalValue v then
      (if pyIn "," t then floatOfDecimal v else intOfDecimal v)
    else if pyIn "TIMESTAMP_NTZ" t then
      if isDateOrDatetime v then v
      else
        match fromisoformat_datetime (pyStr v) with
        | some dt => .datetime dt
        | Option.none => .none
    else v

/-- Embedding of `convert_data_for_sqlite` from `src/snow_to_sqlite.py`
(lines 189-208): each row is zipped against the schema (so the shorter
of the two bounds the converted row) and `convert_value` is applied with
the column's type string, `column_info[1]`. -/
def convert_data_for_sqlite (data : List (List PyVal))
    (schema : List (String × String)) : List (List PyVal) :=
  data.map fun row => (row.zip schema).map fun p => convert_value p.1 p.2.2

end SnowToSqlite

namespace SnowToDuckdb

/-- Embedding of `convert_value` from `src/snow_to_duckdb.py` (lines
91-128): identical control flow to the SQLite variant except the
`BOOLEAN` branch returns `bool(value)` instead of a 0/1 integer. -/
def convert_value (value : PyVal) (snowflake_type : String) : PyVal :=
  match value with
  | .none => .none
  | v =>
    let t := pyUpper snowflake_type
    if pyIn "BOOLEAN" t then .bool (pyTruthy v)
    else if pyIn "NUMBER(38,0)" t then .str (pyStr v)
    else if pyIn "NUMBER" t && isDecimalValue v then
      (if pyIn "," t then floatOfDecimal v else intOfDecimal v)
    else if pyIn "TIMESTAMP_NTZ" t then
      if isDateOrDatetime v then v
      else
        match fromisoformat_datetime (pyStr v) with
        | some dt => .datetime dt
        | Option.none => .none
    else v

/-- Embedding of `convert_data_for_duckdb` from `src/snow_to_duckdb.py`
(lines 141-160), structurally identical to the SQLite batch
converter. -/
def convert_data_for_duckdb (data : List (List PyVal))
    (schema : List (String × String)) : List (List PyVal) :=
  data.map fun row => (row.zip schema).map fun p => convert_value p.1 p.2.2

end SnowToDuckdb

/-- C6: `convert_value(None, t)` is `None` for every type string `t`, in
both pipeline variants — the `value is None` check short-circuits before
any type inspection. -/
theorem C6_none_passthrough :
    ∀ t : String,
      SnowToSqlite.convert_value PyVal.none t = PyVal.none ∧
      SnowToDuckdb.convert_value PyVal.none t = PyVal.none :=
  fun _ => ⟨rfl, rfl⟩

/-- C4 counterexample: the claim asserts malformed temporal strings
convert to null for `"TIMESTAMP"` and `"DATE"` as well, but
`convert_value` only treats `"TIMESTAMP_NTZ"` specially; for the other
two temporal types the non-ISO string `"garbage"` passes through
unchanged instead of becoming `None`. -/
theorem C4_malformed_string_not_nulled :
    SnowToSqlite.convert_value (PyVal.str "garbage") "DATE" = PyVal.str "garbage" ∧
    SnowToSqlite.convert_value (PyVal.str "garbage") "TIMESTAMP" = PyVal.str "garbage" ∧
    SnowToSqlite.convert_value (PyVal.str "garbage") "DATE" ≠ PyVal.none ∧
    SnowToDuckdb.convert_value (PyVal.str "garbage") "TIMESTAMP" ≠ PyVal.none := by
  refine ⟨rfl, rfl, ?_, ?_⟩ <;> decide

/-- C4 (amended): for each temporal remote type `"TIMESTAMP"`,
`"TIMESTAMP_NTZ"`, `"DATE"`, native date/datetime values pass through
unchanged and the converter is a total function (never raises); but only
the `"TIMESTAMP_NTZ"` branch converts unparseable strings to null — for
`"TIMESTAMP"` and `"DATE"` every string value passes through
unchanged. -/
theorem C4_temporal_passthrough :
    (∀ t ∈ (["TIMESTAMP", "TIMESTAMP_NTZ", "DATE"] : List String),
      (∀ d : PyDate,
        SnowToSqlite.convert_value (PyVal.date d) t = PyVal.date d ∧
        SnowToDuckdb.convert_value (PyVal.date d) t = PyVal.date d) ∧
      (∀ dt : PyDateTime,
        SnowToSqlite.convert_value (PyVal.datetime dt) t = PyVal.datetime dt ∧
        SnowToDuckdb.convert_value (PyVal.datetime dt) t = PyVal.datetime dt)) ∧
    (∀ s : String, fromisoformat_datetime s = Option.none →
      SnowToSqlite.convert_value (PyVal.str s) "TIMESTAMP_NTZ" = PyVal.none ∧
      SnowToDuckdb.convert_value (PyVal.str s) "TIMESTAMP_NTZ" = PyVal.none) ∧
    (∀ s : String,
      SnowToSqlite.convert_value (PyVal.str s) "TIMESTAMP" = PyVal.str s ∧
      SnowToSqlite.convert_value (PyVal.str s) "DATE" = PyVal.str s) := by
  refine ⟨?_, ?_, ?_⟩
  · intro t ht
    fin_cases ht <;> exact ⟨fun d => ⟨rfl, rfl⟩, fun dt => ⟨rfl, rfl⟩⟩
  · intro s h
    constructor
    · show (match fromisoformat_datetime (pyStr (PyVal.str s)) with
        | some dt => PyVal.datetime dt
        | Option.none => PyVal.none) = PyVal.none
      rw [show pyStr (PyVal.str s) = s from rfl, h]
    · show (match fromisoformat_datetime (pyStr (PyVal.str s)) with
        | some dt => PyVal.datetime dt
        | Option.none => PyVal.none) = PyVal.none
      rw [show pyStr (PyVal.str s) = s from rfl, h]
  · exact fun s => ⟨rfl, rfl⟩

/-- C4 witness: the malformed string `"2024-99-99T99:99:99"` converts
to `None` under `"TIMESTAMP_NTZ"` in both variants. -/
theorem C4_temporal_passthrough_witness :
    SnowToSqlite.convert_value (PyVal.str "2024-99-99T99:99:99") "TIMESTAMP_NTZ" = PyVal.none ∧
    SnowToDuckdb.convert_value (PyVal.str "2024-99-99T99:99:99") "TIMESTAMP_NTZ" = PyVal.none :=
  C4_temporal_passthrough.2.1 "2024-99-99T99:99:99" (by decide)

/-- Reading a canonical decimal string back as a number, the inverse
direction of the large-integer text policy. -/
def parseDecimalNat (s : String) : Option Nat :=
  if s.data ≠ [] ∧ s.data.all isDigitChar then
    some (digitsToNat (s.data.map digitVal))
  else Option.none

/-- C5: every non-null value of remote type `"NUMBER(38,0)"` is
converted to its Python `str` rendering — for integers the canonical
decimal string — in both variants, and the 38-digit boundary integer
round-trips through that string without precision loss. -/
theorem C5_number_38_0_as_text :
    (∀ v : PyVal, v ≠ PyVal.none →
      SnowToSqlite.convert_value v "NUMBER(38,0)" = PyVal.str (pyStr v) ∧
      SnowToDuckdb.convert_value v "NUMBER(38,0)" = PyVal.str (pyStr v)) ∧
    parseDecimalNat (pyStr (PyVal.int 99999999999999999999999999999999999999)) =
      some 99999999999999999999999999999999999999 := by
  constructor
  · intro v hv
    cases v <;> first
      | exact absurd rfl hv
      | exact ⟨rfl, rfl⟩
  · decide

/-- C5 witness: the conversion applied to the 38-digit boundary
integer. -/
theorem C5_number_38_0_as_text_witness :
    SnowToSqlite.convert_value (PyVal.int 99999999999999999999999999999999999999)
        "NUMBER(38,0)" =
      PyVal.str (pyStr (PyVal.int 99999999999999999999999999999999999999)) :=
  (C5_number_38_0_as_text.1 (PyVal.int 99999999999999999999999999999999999999)
    (by decide)).1

/-- C10: batch conversion preserves the number of rows, and each
converted row has exactly `min (row length) (schema length)` cells —
`zip` silently drops trailing cells of a row longer than the schema
rather than reporting an arity error.  Stated for both variants via
`getElem?` so it covers every index. -/
theorem C10_batch_shape :
    ∀ (data : List (List PyVal)) (schema : List (String × String)),
      (SnowToSqlite.convert_data_for_sqlite data schema).length = data.length ∧
      (SnowToDuckdb.convert_data_for_duckdb data schema).length = data.length ∧
      (∀ i : Nat,
        ((SnowToSqlite.convert_data_for_sqlite data schema)[i]?).map List.length =
          (data[i]?).map fun row => min row.length schema.length) ∧
      (∀ i : Nat,
        ((SnowToDuckdb.convert_data_for_duckdb data schema)[i]?).map List.length =
          (data[i]?).map fun row => min row.length schema.length) := by
  intro data schema
  refine ⟨by simp [SnowToSqlite.convert_data_for_sqlite],
          by simp [SnowToDuckdb.convert_data_for_duckdb], ?_, ?_⟩
  · intro i
    simp only [SnowToSqlite.convert_data_for_sqlite, List.getElem?_map]
    cases data[i]? <;> simp [List.length_zip]
  · intro i
    simp only [SnowToDuckdb.convert_data_for_duckdb, List.getElem?_map]
    cases data[i]? <;> simp [List.length_zip]

/-- The Python exceptions the loader model distinguishes. -/
inductive PyErr
  | indexError
deriving DecidableEq

namespace SnowToSqlite

/-- Embedding of the query-construction behaviour of
`write_data_to_sqlite` from `src/snow_to_sqlite.py` (lines 211-223):
the placeholder list is built by iterating over `data[0]`, which raises
`IndexError` when `data` is empty, before any row is inserted; with a
first row present the `INSERT` statement is assembled from `?`
placeholders joined by `", "`. -/
def write_data_to_sqlite (data : List (List PyVal)) (table_name : String) :
    Except PyErr String :=
  match data with
  | [] => Except.error PyErr.indexError
  | row0 :: _ =>
    let placeholders := String.intercalate ", " (row0.map fun _ => "?")
    Except.ok ("INSERT INTO " ++ table_name ++ " VALUES (" ++ placeholders ++ ")")

end SnowToSqlite

/-- C9: calling the SQLite row loader with an empty converted-row list
raises `IndexError` from `data[0]` instead of completing as a no-op,
while any nonempty list yields an `INSERT` statement — so replicating an
empty remote table fails in the SQLite variant. -/
theorem C9_empty_data_index_error :
    (∀ table_name : String,
      SnowToSqlite.write_data_to_sqlite [] table_name =
        Except.error PyErr.indexError) ∧
    (∀ (row : List PyVal) (rest : List (List PyVal)) (table_name : String),
      ∃ q, SnowToSqlite.write_data_to_sqlite (row :: rest) table_name =
        Except.ok q) :=
  ⟨fun _ => rfl, fun _ _ _ => ⟨_, rfl⟩⟩

/-- The statements of a per-table local-store operation, in source
order.  `create_table_in_sqlite` (lines 115-130) and
`write_data_to_sqlite` (lines 211-223) both run straight-line code:
connect, build the SQL text (for the loader this is the `data[0]`
placeholder construction), execute, commit, close — with no
`try`/`finally` or context manager around any of it. -/
inductive DbOp
  | openConn
  | buildQuery
  | execOp
  | commitOp
  | closeConn
deriving DecidableEq

/-- Execution of straight-line Python statements with exceptions: run
the statements in order; the first statement that raises aborts the
rest.  Returns the statements that actually ran and the raising one, if
any. -/
def runOps (fails : DbOp → Bool) : List DbOp → List DbOp × Option DbOp
  | [] => ([], Option.none)
  | op :: rest =>
    if fails op then ([], some op)
    else
      let (done, err) := runOps fails rest
      (op :: done, err)

/-- The statement sequence of `create_table_in_sqlite`
(`src/snow_to_sqlite.py` lines 115-130). -/
def create_table_ops : List DbOp :=
  [DbOp.openConn, DbOp.buildQuery, DbOp.execOp, DbOp.commitOp, DbOp.closeConn]

/-- The statement sequence of `write_data_to_sqlite`
(`src/snow_to_sqlite.py` lines 211-223); `buildQuery` is the
`data[0]`-based placeholder construction, which can itself raise. -/
def write_data_ops : List DbOp :=
  [DbOp.openConn, DbOp.buildQuery, DbOp.execOp, DbOp.commitOp, DbOp.closeConn]

/-- C8 counterexample: when DDL execution raises, the per-table
operation has opened the local connection but propagates the exception
without ever reaching `conn.close()` — there is no `try`/`finally`
protecting the close. -/
theorem C8_close_skipped_on_exec_failure :
    DbOp.openConn ∈ (runOps (fun op => op == DbOp.execOp) create_table_ops).1 ∧
    DbOp.closeConn ∉ (runOps (fun op => op == DbOp.execOp) create_table_ops).1 ∧
    (runOps (fun op => op == DbOp.execOp) create_table_ops).2 = some DbOp.execOp ∧
    DbOp.closeConn ∉ (runOps (fun op => op == DbOp.buildQuery) write_data_ops).1 := by
  decide

/-- C8 (amended): in both per-table operations the local connection is
closed exactly on the fully successful path — `conn.close()` runs if
and only if no earlier statement (and not `close` itself) raised; on
any exception path the operation propagates with the connection left
open. -/
theorem C8_close_iff_success :
    ∀ fails : DbOp → Bool,
      (DbOp.closeConn ∈ (runOps fails create_table_ops).1 ↔
        (runOps fails create_table_ops).2 = Option.none) ∧
      (DbOp.closeConn ∈ (runOps fails write_data_ops).1 ↔
        (runOps fails write_data_ops).2 = Option.none) := by
  intro fails
  cases h1 : fails DbOp.openConn <;>
    cases h2 : fails DbOp.buildQuery <;>
      cases h3 : fails DbOp.execOp <;>
        cases h4 : fails DbOp.commitOp <;>
          cases h5 : fails DbOp.closeConn <;>
            simp [create_table_ops, write_data_ops, runOps, h1, h2, h3, h4, h5]

/-- Outcome of one run of the `main` driver: the tables whose processing
completed, the exception that escaped the `for` loop (if any), and
whether the Snowflake connection was closed.  Both scripts share this
shape (`src/snow_to_sqlite.py` lines 226-255, `src/snow_to_duckdb.py`
lines 184-213). -/
structure JobResult where
  processed : List String
  error : Option String
  snowflakeClosed : Bool
deriving DecidableEq

/-- The `for table_name in table_names` loop body of `main`, abstracted
over the per-table step (schema fetch, table creation, data fetch,
conversion, write — any of which may raise).  A raising step aborts the
loop at that table; there is no `except` clause. -/
def runTableLoop (step : String → Except String Unit) :
    List String → List String × Option String
  | [] => ([], Option.none)
  | t :: rest =>
    match step t with
    | Except.ok _ =>
      let (done, err) := runTableLoop step rest
      (t :: done, err)
    | Except.error e => ([], some e)

/-- Embedding of `main` from both scripts: the table loop runs inside
`try`/`finally` whose only cleanup is closing the Snowflake connection;
an exception from any table escapes `main` after that cleanup. -/
def main_pipeline (step : String → Except String Unit)
    (table_names : List String) : JobResult :=
  let (done, err) := runTableLoop step table_names
  { processed := done, error := err, snowflakeClosed := true }

/-- C3 counterexample: with the configured list
`["customers", "items"]` and a schema fetch that fails on
`"customers"`, the job processes no further table — `"items"` is never
reached, refuting the claim that subsequent tables still run; the only
thing the `finally` guarantees is the Snowflake connection close. -/
theorem C3_first_failure_aborts_job :
    (main_pipeline
        (fun t => if t == "customers" then Except.error "SchemaFetchError"
                  else Except.ok ())
        ["customers", "items"]).processed = [] ∧
    "items" ∉ (main_pipeline
        (fun t => if t == "customers" then Except.error "SchemaFetchError"
                  else Except.ok ())
        ["customers", "items"]).processed ∧
    (main_pipeline
        (fun t => if t == "customers" then Except.error "SchemaFetchError"
                  else Except.ok ())
        ["customers", "items"]).error = some "SchemaFetchError" := by
  refine ⟨rfl, ?_, rfl⟩
  decide

theorem runTableLoop_all_ok (step : String → Except String Unit)
    (tables : List String) (h : ∀ t ∈ tables, step t = Except.ok ()) :
    runTableLoop step tables = (tables, Option.none) := by
  induction tables with
  | nil => rfl
  | cons t rest ih =>
    have ht := h t (by simp)
    simp only [runTableLoop, ht]
    rw [ih fun u hu => h u (by simp [hu])]

theorem runTableLoop_ok_then_err (step : String → Except String Unit)
    (e t : String) (pre rest : List String)
    (hpre : ∀ u ∈ pre, step u = Except.ok ())
    (ht : step t = Except.error e) :
    runTableLoop step (pre ++ t :: rest) = (pre, some e) := by
  induction pre with
  | nil => simp [runTableLoop, ht]
  | cons p ps ih =>
    have hp := hpre p (by simp)
    simp [runTableLoop, hp, ih fun u hu => hpre u (by simp [hu])]

theorem runTableLoop_processed_all_ok (step : String → Except String Unit) :
    ∀ tables : List String, (runTableLoop step tables).1 = tables →
      ∀ t ∈ tables, step t = Except.ok () := by
  intro tables
  induction tables with
  | nil =>
    intro _ t ht
    simp at ht
  | cons t rest ih =>
    intro h u hu
    cases hstep : step t with
    | error e =>
      rw [show runTableLoop step (t :: rest) = ([], some e) by
        simp [runTableLoop, hstep]] at h
      simp at h
    | ok v =>
      have hsplit : runTableLoop step (t :: rest) =
          (t :: (runTableLoop step rest).1, (runTableLoop step rest).2) := by
        simp [runTableLoop, hstep]
      rw [hsplit] at h
      simp only [List.cons.injEq] at h
      rcases List.mem_cons.mp hu with h1 | h2
      · subst h1
        cases v
        exact hstep
      · exact ih h.2 u h2

/-- C3 (amended): a per-table failure aborts the whole job rather than
being skipped: if the step raises at any table of the configured list
after earlier tables succeeded, exactly those earlier tables are
processed — neither the failing table nor any subsequent one runs — and
the exception escapes `main` (the `finally` still closes the Snowflake
connection); moreover all tables are processed if and only if every
table's step succeeds. -/
theorem C3_abort_semantics :
    (∀ (step : String → Except String Unit) (e t : String)
        (pre rest : List String),
      (∀ u ∈ pre, step u = Except.ok ()) →
      step t = Except.error e →
      main_pipeline step (pre ++ t :: rest) =
        { processed := pre, error := some e, snowflakeClosed := true }) ∧
    (∀ (step : String → Except String Unit) (tables : List String),
      (main_pipeline step tables).processed = tables ↔
        ∀ t ∈ tables, step t = Except.ok ()) := by
  constructor
  · intro step e t pre rest hpre ht
    simp [main_pipeline, runTableLoop_ok_then_err step e t pre rest hpre ht]
  · intro step tables
    constructor
    · intro h
      apply runTableLoop_processed_all_ok step tables
      simp only [main_pipeline] at h
      rcases hrl : runTableLoop step tables with ⟨done, err⟩
      rwa [hrl] at h
    · intro h
      simp [main_pipeline, runTableLoop_all_ok step tables h]

/-- C3 witness: with a step that fails exactly on `"items"`, the list
`["customers", "items", "orders"]` yields `"customers"` processed,
`"orders"` never reached, and the error escaping. -/
theorem C3_abort_semantics_witness :
    main_pipeline
        (fun u => if u == "items" then Except.error "boom" else Except.ok ())
        (["customers"] ++ "items" :: ["orders"]) =
      { processed := ["customers"], error := some "boom",
        snowflakeClosed := true } :=
  C3_abort_semantics.1
    (fun u => if u == "items" then Except.error "boom" else Except.ok ())
    "boom" "items" ["customers"] ["orders"]
    (by
      intro u hu
      simp at hu
      subst hu
      rfl)
    rfl
